import Mathlib

/-!
# TeensyStripController: host-side serial protocol driver

Shallow embedding of `macos_controller/src/teensy_controller.{h,cpp}`.

The controller object (`port_`, `connected_`) and the outside world it talks to
(libserialport and the two standard streams) are put together in one record,
`Sys`.  Every member function becomes a function from `Sys` (and its
arguments) to its return value and the new `Sys`.  Reference parameters
(`uint8_t& major`) are passed in with their old value and returned with their
new one.

The serial library is external.  Its answers are taken from the field `lib`:
`writeRet n` is what the `n`-th call of `sp_blocking_write` returns and
`readRet n` what the `n`-th call of `sp_blocking_read` returns together with
the byte it delivers (calls are counted from 0 in `writeCalls` and
`readCalls`).  Every library call is recorded in `log`, so the number, order
and arguments of transport calls can be read off afterwards as `trace`.

Machine integers are naturals: a `uint8_t` is a natural below 256, a
`uint16_t` a natural below 65536, and the two places where the source narrows
a wider value (`static_cast<uint16_t>(colors.size())`, the assignment to
`max_leds`) reduce modulo 65536 explicitly.
-/

namespace TeensyStrip

/-- Colour of one LED, `struct Color`: three `uint8_t` channels. -/
structure Color where
  r : Nat
  g : Nat
  b : Nat
deriving DecidableEq, Repr

/-- One call into libserialport (or `sleep_for`), with the arguments that matter. -/
inductive Event where
  | getPortByName (name : String)
  | openPort (port : Nat)
  | setBaudrate (port : Nat) (baud : Nat)
  | setBits (port : Nat) (bits : Nat)
  | setParityNone (port : Nat)
  | setStopbits (port : Nat) (bits : Nat)
  | setFlowcontrolNone (port : Nat)
  | sleepMs (ms : Nat)
  | flushBoth (port : Nat)
  | close (port : Nat)
  | freePort (port : Nat)
  | blockingWrite (port : Nat) (byte : Nat) (timeout_ms : Int)
  | blockingRead (port : Nat) (timeout_ms : Int)
deriving DecidableEq, Repr

/-- What libserialport will answer: the behaviour of the serial link and of
the device behind it, fixed for a whole run. -/
structure Transport where
  /-- Return value of the `n`-th `sp_blocking_write` call. -/
  writeRet : Nat → Int
  /-- Return value and delivered byte of the `n`-th `sp_blocking_read` call. -/
  readRet : Nat → Int × Nat
  /-- Answer of `sp_get_port_by_name`: a port handle, or `none` for an error
  (the library then leaves the null pointer in `*port_ptr`). -/
  lookupRet : String → Option Nat
  /-- Return value of `sp_open` on a handle; `SP_OK` is 0. -/
  openRet : Nat → Int

/-- The controller object together with the world it acts on. -/
structure Sys where
  /-- Member `struct sp_port* port_`; `none` is `nullptr`. -/
  port_ : Option Nat
  /-- Member `bool connected_`. -/
  connected_ : Bool
  /-- The serial library the controller is linked against. -/
  lib : Transport
  /-- Number of `sp_blocking_write` calls made so far. -/
  writeCalls : Nat
  /-- Number of `sp_blocking_read` calls made so far. -/
  readCalls : Nat
  /-- Library calls made so far, most recent first. -/
  log : List Event
  /-- Lines written to `std::cerr`. -/
  cerr : List String
  /-- Lines written to `std::cout`. -/
  cout : List String

/-- Library calls made so far, in the order they were made. -/
def Sys.trace (s : Sys) : List Event := s.log.reverse

/-- The world after the library calls `events` were made, in this order. -/
def Sys.record (s : Sys) (events : List Event) : Sys :=
  { s with log := events.reverse ++ s.log }

/-- Protocol opcodes, `enum Command`. -/
def CMD_SET_LENGTH : Nat := 0x4C
def CMD_FILL : Nat := 0x46
def CMD_RECEIVE_DATA : Nat := 0x52
def CMD_OUTPUT : Nat := 0x4F
def CMD_CLEAR : Nat := 0x43
def CMD_VERSION : Nat := 0x56
def CMD_MAX_LEDS : Nat := 0x4D

/-- Default of the `timeout_ms` parameter of `readByte` and `waitForAck`. -/
def defaultTimeoutMs : Int := 1000

/-- Constructor `TeensyController()`: no port, not connected, in a given world. -/
def TeensyController (world : Sys) : Sys :=
  { world with port_ := none, connected_ := false }

/-- Member `disconnect()`. -/
def disconnect (s : Sys) : Sys :=
  let s1 : Sys :=
    match s.port_ with
    | some p => { s.record [Event.close p, Event.freePort p] with port_ := none }
    | none => s
  { s1 with connected_ := false }

/-- Member `isConnected()`. -/
def isConnected (s : Sys) : Bool := s.connected_

/-- Member `connect(port_name)`. -/
def connect (s : Sys) (port_name : String) : Bool × Sys :=
  let s0 : Sys := if s.connected_ then disconnect s else s
  let s1 : Sys := { s0.record [Event.getPortByName port_name] with
                      port_ := s0.lib.lookupRet port_name }
  match s0.lib.lookupRet port_name with
  | none => (false, { s1 with cerr := s1.cerr ++ ["Error finding port " ++ port_name] })
  | some p =>
    let s2 : Sys := s1.record [Event.openPort p]
    if s2.lib.openRet p ≠ 0 then
      (false, { s2.record [Event.freePort p] with
                  cerr := s2.cerr ++ ["Error opening port " ++ port_name],
                  port_ := none })
    else
      (true, { s2.record [Event.setBaudrate p 9600, Event.setBits p 8,
                          Event.setParityNone p, Event.setStopbits p 1,
                          Event.setFlowcontrolNone p, Event.sleepMs 2000,
                          Event.flushBoth p] with
                 connected_ := true,
                 cout := s2.cout ++ ["Connected to " ++ port_name] })

/-- Member `sendByte(byte)`: one `sp_blocking_write` of one byte, 1000 ms. -/
def sendByte (s : Sys) (byte : Nat) : Bool × Sys :=
  match s.port_ with
  | none => (false, s)
  | some p =>
    let result := s.lib.writeRet s.writeCalls
    (decide (result = 1),
      { s.record [Event.blockingWrite p byte 1000] with writeCalls := s.writeCalls + 1 })

/-- High byte of a word as `sendWord` computes it, `(word >> 8) & 0xFF`. -/
def highByte (word : Nat) : Nat := (word >>> 8) &&& 0xFF

/-- Low byte of a word as `sendWord` computes it, `word & 0xFF`. -/
def lowByte (word : Nat) : Nat := word &&& 0xFF

/-- Member `sendWord(word)`: high byte, and only if that was written, low byte. -/
def sendWord (s : Sys) (word : Nat) : Bool × Sys :=
  let high_byte := highByte word
  let low_byte := lowByte word
  let r1 := sendByte s high_byte
  if r1.1 then sendByte r1.2 low_byte else (false, r1.2)

/-- Member `sendColor(color)`: `sendByte(r) && sendByte(g) && sendByte(b)`. -/
def sendColor (s : Sys) (color : Color) : Bool × Sys :=
  let r1 := sendByte s color.r
  if r1.1 then
    let r2 := sendByte r1.2 color.g
    if r2.1 then sendByte r2.2 color.b else (false, r2.2)
  else (false, r1.2)

/-- Member `readByte(byte, timeout_ms)`: one `sp_blocking_read` of one byte.
The call returns 1 when a byte arrived (and stores it), 0 on a timeout and a
negative code on an error; in the last two cases the destination is left as
it was. -/
def readByte (s : Sys) (byte : Nat) (timeout_ms : Int) : Bool × Nat × Sys :=
  match s.port_ with
  | none => (false, byte, s)
  | some p =>
    let result := s.lib.readRet s.readCalls
    (decide (result.1 = 1),
      if result.1 = 1 then result.2 else byte,
      { s.record [Event.blockingRead p timeout_ms] with readCalls := s.readCalls + 1 })

/-- Member `waitForAck(timeout_ms)`.  The local `response` starts out
uninitialised; it is read only after a successful `readByte`. -/
def waitForAck (s : Sys) (timeout_ms : Int) : Bool × Sys :=
  let r := readByte s 0 timeout_ms
  let response := r.2.1
  let s1 := r.2.2
  if !r.1 then
    (false, { s1 with cerr := s1.cerr ++ ["Timeout waiting for response"] })
  else if response = 0x41 then
    (true, s1)
  else if response = 0x4E then
    (false, { s1 with cerr := s1.cerr ++ ["Received NACK from device"] })
  else
    (false, { s1 with cerr := s1.cerr ++ ["Unexpected response: " ++ toString response] })

/-- Member `setStripLength(length)`. -/
def setStripLength (s : Sys) (length : Nat) : Bool × Sys :=
  if !s.connected_ then (false, s) else
  let r1 := sendByte s CMD_SET_LENGTH
  if !r1.1 then (false, r1.2) else
  let r2 := sendWord r1.2 length
  if !r2.1 then (false, r2.2) else
  waitForAck r2.2 defaultTimeoutMs

/-- Member `fillLEDs(first_led, count, color)`. -/
def fillLEDs (s : Sys) (first_led count : Nat) (color : Color) : Bool × Sys :=
  if !s.connected_ then (false, s) else
  let r1 := sendByte s CMD_FILL
  if !r1.1 then (false, r1.2) else
  let r2 := sendWord r1.2 first_led
  if !r2.1 then (false, r2.2) else
  let r3 := sendWord r2.2 count
  if !r3.1 then (false, r3.2) else
  let r4 := sendColor r3.2 color
  if !r4.1 then (false, r4.2) else
  waitForAck r4.2 defaultTimeoutMs

/-- The range-for of `setLEDData`: send each colour, stop at the first failure. -/
def setLEDData_loop (s : Sys) : List Color → Bool × Sys
  | [] => (true, s)
  | color :: rest =>
    let r := sendColor s color
    if !r.1 then (false, r.2) else setLEDData_loop r.2 rest

/-- Member `setLEDData(first_led, colors)`.  The count sent is
`static_cast<uint16_t>(colors.size())`. -/
def setLEDData (s : Sys) (first_led : Nat) (colors : List Color) : Bool × Sys :=
  if !s.connected_ || colors.isEmpty then (false, s) else
  let r1 := sendByte s CMD_RECEIVE_DATA
  if !r1.1 then (false, r1.2) else
  let r2 := sendWord r1.2 first_led
  if !r2.1 then (false, r2.2) else
  let r3 := sendWord r2.2 (colors.length % 65536)
  if !r3.1 then (false, r3.2) else
  let r4 := setLEDData_loop r3.2 colors
  if !r4.1 then (false, r4.2) else
  waitForAck r4.2 defaultTimeoutMs

/-- Member `outputData()`. -/
def outputData (s : Sys) : Bool × Sys :=
  if !s.connected_ then (false, s) else
  let r1 := sendByte s CMD_OUTPUT
  if !r1.1 then (false, r1.2) else
  waitForAck r1.2 defaultTimeoutMs

/-- Member `clearAll()`. -/
def clearAll (s : Sys) : Bool × Sys :=
  if !s.connected_ then (false, s) else
  let r1 := sendByte s CMD_CLEAR
  if !r1.1 then (false, r1.2) else
  waitForAck r1.2 defaultTimeoutMs

/-- Member `getVersion(major, minor)`; returns the result, the new `major`,
the new `minor` and the new state. -/
def getVersion (s : Sys) (major minor : Nat) : Bool × Nat × Nat × Sys :=
  if !s.connected_ then (false, major, minor, s) else
  let r1 := sendByte s CMD_VERSION
  if !r1.1 then (false, major, minor, r1.2) else
  let r2 := readByte r1.2 major defaultTimeoutMs
  if !r2.1 then (false, r2.2.1, minor, r2.2.2) else
  let r3 := readByte r2.2.2 minor defaultTimeoutMs
  if !r3.1 then (false, r2.2.1, r3.2.1, r3.2.2) else
  let r4 := waitForAck r3.2.2 defaultTimeoutMs
  (r4.1, r2.2.1, r3.2.1, r4.2)

/-- Combination of the two reply bytes in `getMaxLEDs`,
`(static_cast<uint16_t>(high_byte) << 8) | low_byte` stored in a `uint16_t`. -/
def combineBytes (high_byte low_byte : Nat) : Nat :=
  ((high_byte <<< 8) ||| low_byte) % 65536

/-- Member `getMaxLEDs(max_leds)`; returns the result, the new `max_leds` and
the new state.  The locals `high_byte` and `low_byte` start out uninitialised
and are read only after both reads succeeded. -/
def getMaxLEDs (s : Sys) (max_leds : Nat) : Bool × Nat × Sys :=
  if !s.connected_ then (false, max_leds, s) else
  let r1 := sendByte s CMD_MAX_LEDS
  if !r1.1 then (false, max_leds, r1.2) else
  let r2 := readByte r1.2 0 defaultTimeoutMs
  if !r2.1 then (false, max_leds, r2.2.2) else
  let r3 := readByte r2.2.2 0 defaultTimeoutMs
  if !r3.1 then (false, max_leds, r3.2.2) else
  let high_byte := r2.2.1
  let low_byte := r3.2.1
  let r4 := waitForAck r3.2.2 defaultTimeoutMs
  (r4.1, combineBytes high_byte low_byte, r4.2)

/-! ## Vocabulary of the statements -/

/-- The controller is in state `Connected` on handle `p`: `connect` succeeded
and no `disconnect` followed, so the flag is set and the handle is held. -/
def ConnectedOn (s : Sys) (p : Nat) : Prop := s.connected_ = true ∧ s.port_ = some p

/-- The transport reports every write as one byte written. -/
def AcceptsWrites (s : Sys) : Prop := ∀ n, s.lib.writeRet n = 1

/-- Trace entry of `sendByte(byte)` on handle `p`. -/
def wr (p byte : Nat) : Event := Event.blockingWrite p byte 1000

/-- Trace entry of a `readByte` with the default timeout on handle `p`. -/
def rd (p : Nat) : Event := Event.blockingRead p 1000

/-- The three wire bytes of a colour, in the order `sendColor` sends them. -/
def colorBytes (c : Color) : List Nat := [c.r, c.g, c.b]

/-- Sending a list of bytes with `sendByte`, stopping at the first failure:
the common shape of `sendWord`, `sendColor` and the command prefixes. -/
def sendBytes (s : Sys) : List Nat → Bool × Sys
  | [] => (true, s)
  | byte :: rest =>
    let r := sendByte s byte
    if r.1 then sendBytes r.2 rest else (false, r.2)

/-- State after `bytes` were all written on handle `p`. -/
def afterWrites (s : Sys) (p : Nat) (bytes : List Nat) : Sys :=
  { s.record (bytes.map (wr p)) with writeCalls := s.writeCalls + bytes.length }

/-- State after one `sp_blocking_read` with timeout `timeout_ms` on handle `p`. -/
def afterRead (s : Sys) (p : Nat) (timeout_ms : Int) : Sys :=
  { s.record [Event.blockingRead p timeout_ms] with readCalls := s.readCalls + 1 }

/-- Shape shared by the five operations that only write and then wait for the
acknowledgement. -/
def sendThenAck (s : Sys) (bytes : List Nat) : Bool × Sys :=
  if (sendBytes s bytes).1 then waitForAck (sendBytes s bytes).2 defaultTimeoutMs
  else (false, (sendBytes s bytes).2)

/-- The controller part of `t` is that of `s`: same handle, same flag. -/
def SameConnection (s t : Sys) : Prop := t.port_ = s.port_ ∧ t.connected_ = s.connected_

/-- A call of one of the seven strip operations, with its arguments. -/
inductive Op where
  | setStripLength (length : Nat)
  | fillLEDs (first_led count : Nat) (color : Color)
  | setLEDData (first_led : Nat) (colors : List Color)
  | outputData
  | clearAll
  | getVersion (major minor : Nat)
  | getMaxLEDs (max_leds : Nat)

/-- Result and final state of a strip operation. -/
def Op.run : Op → Sys → Bool × Sys
  | .setStripLength length, s => TeensyStrip.setStripLength s length
  | .fillLEDs first_led count color, s => TeensyStrip.fillLEDs s first_led count color
  | .setLEDData first_led colors, s => TeensyStrip.setLEDData s first_led colors
  | .outputData, s => TeensyStrip.outputData s
  | .clearAll, s => TeensyStrip.clearAll s
  | .getVersion major minor, s =>
      ((TeensyStrip.getVersion s major minor).1, (TeensyStrip.getVersion s major minor).2.2.2)
  | .getMaxLEDs max_leds, s =>
      ((TeensyStrip.getMaxLEDs s max_leds).1, (TeensyStrip.getMaxLEDs s max_leds).2.2)

/-- The bytes a strip operation sets out to write on a connected controller,
in order.  `setLEDData` with no colours starts no transaction. -/
def Op.wire : Op → List Nat
  | .setStripLength length => [CMD_SET_LENGTH, highByte length, lowByte length]
  | .fillLEDs first_led count color =>
      [CMD_FILL, highByte first_led, lowByte first_led, highByte count, lowByte count,
        color.r, color.g, color.b]
  | .setLEDData first_led colors =>
      if colors.isEmpty then []
      else [CMD_RECEIVE_DATA, highByte first_led, lowByte first_led,
              highByte (colors.length % 65536), lowByte (colors.length % 65536)]
            ++ colors.flatMap colorBytes
  | .outputData => [CMD_OUTPUT]
  | .clearAll => [CMD_CLEAR]
  | .getVersion _ _ => [CMD_VERSION]
  | .getMaxLEDs _ => [CMD_MAX_LEDS]

/-! ## Concrete sessions -/

/-- A fresh controller connected by `connect` on a simulated transport: the
port is found (handle 3) and opens, writes return `writeRet`, reads return
`readRet`. -/
def session (writeRet : Nat → Int) (readRet : Nat → Int × Nat) : Sys :=
  (connect (TeensyController
    { port_ := none, connected_ := false,
      lib := { writeRet := writeRet, readRet := readRet,
               lookupRet := fun _ => some 3, openRet := fun _ => 0 },
      writeCalls := 0, readCalls := 0, log := [], cerr := [], cout := [] }) "usbmodem").2

/-- Session on a device that accepts every write and answers `A` to every read. -/
def ackSession : Sys := session (fun _ => 1) (fun _ => (1, 0x41))

/-- Session on a device that accepts every write and answers `X` to every read. -/
def garbageSession : Sys := session (fun _ => 1) (fun _ => (1, 0x58))

/-- Session on a device that reports 300 LEDs: reads deliver `0x01`, `0x2C`, `A`. -/
def maxLedsSession : Sys :=
  session (fun _ => 1)
    (fun n => if n = 0 then (1, 0x01) else if n = 1 then (1, 0x2C) else (1, 0x41))

/-- Session on a device that sends one byte, `0x02`, and then falls silent:
every later read times out. -/
def silentSession : Sys :=
  session (fun _ => 1) (fun n => if n = 0 then (1, 0x02) else (0, 0))

/-- Session on a link that takes the first byte written and refuses the second. -/
def stallingSession : Sys :=
  session (fun n => if n = 1 then 0 else 1) (fun _ => (1, 0x41))

/-- A fresh controller on which `connect` was never called. -/
def idleController : Sys :=
  TeensyController
    { port_ := none, connected_ := false,
      lib := { writeRet := fun _ => 1, readRet := fun _ => (1, 0x41),
               lookupRet := fun _ => some 3, openRet := fun _ => 0 },
      writeCalls := 0, readCalls := 0, log := [], cerr := [], cout := [] }

/-! ## Building blocks -/

theorem record_trace (s : Sys) (events : List Event) :
    (s.record events).trace = s.trace ++ events := by
  simp [Sys.record, Sys.trace]

theorem afterWrites_trace (s : Sys) (p : Nat) (bytes : List Nat) :
    (afterWrites s p bytes).trace = s.trace ++ bytes.map (wr p) :=
  record_trace s (bytes.map (wr p))

theorem afterRead_trace (s : Sys) (p : Nat) (timeout_ms : Int) :
    (afterRead s p timeout_ms).trace = s.trace ++ [Event.blockingRead p timeout_ms] :=
  record_trace s [Event.blockingRead p timeout_ms]

theorem afterWrites_afterWrites (s : Sys) (p : Nat) (xs ys : List Nat) :
    afterWrites (afterWrites s p xs) p ys = afterWrites s p (xs ++ ys) := by
  simp [afterWrites, Sys.record, Nat.add_assoc]

theorem sendByte_afterWrites (s : Sys) (p byte : Nat) (hp : s.port_ = some p) :
    sendByte s byte = (decide (s.lib.writeRet s.writeCalls = 1), afterWrites s p [byte]) := by
  simp [sendByte, hp, afterWrites, wr]

theorem sendByte_no_port (s : Sys) (byte : Nat) (hp : s.port_ = none) :
    sendByte s byte = (false, s) := by
  simp [sendByte, hp]

theorem sendByte_success_port (s : Sys) (byte : Nat) (h : (sendByte s byte).1 = true) :
    ∃ p, s.port_ = some p ∧ (sendByte s byte).2.port_ = some p := by
  rcases hp : s.port_ with _ | p
  · rw [sendByte_no_port s byte hp] at h
    exact absurd h (by simp)
  · exact ⟨p, rfl, by rw [sendByte_afterWrites s p byte hp]; exact hp⟩

theorem sendBytes_nil (s : Sys) : sendBytes s [] = (true, s) := rfl

theorem sendBytes_cons (s : Sys) (byte : Nat) (rest : List Nat) :
    sendBytes s (byte :: rest) =
      if (sendByte s byte).1 then sendBytes (sendByte s byte).2 rest
      else (false, (sendByte s byte).2) := rfl

theorem sendBytes_append (s : Sys) (xs ys : List Nat) :
    sendBytes s (xs ++ ys) =
      if (sendBytes s xs).1 then sendBytes (sendBytes s xs).2 ys
      else (false, (sendBytes s xs).2) := by
  induction xs generalizing s with
  | nil => simp [sendBytes_nil]
  | cons x xs ih =>
    simp only [List.cons_append, sendBytes_cons]
    by_cases h : (sendByte s x).1 = true
    · simp [h, ih]
    · simp [h]

theorem sendBytes_singleton (s : Sys) (byte : Nat) :
    sendBytes s [byte] = sendByte s byte := by
  simp only [sendBytes_cons, sendBytes_nil]
  generalize sendByte s byte = r1
  obtain ⟨b1, s1⟩ := r1
  cases b1 <;> rfl

theorem sendWord_eq (s : Sys) (word : Nat) :
    sendWord s word = sendBytes s [highByte word, lowByte word] := by
  simp only [sendWord, sendBytes_cons, sendBytes_nil]
  generalize sendByte s (highByte word) = r1
  obtain ⟨b1, s1⟩ := r1
  cases b1
  · rfl
  · simp only [if_true]
    generalize sendByte s1 (lowByte word) = r2
    obtain ⟨b2, s2⟩ := r2
    cases b2 <;> rfl

theorem sendColor_eq (s : Sys) (color : Color) :
    sendColor s color = sendBytes s (colorBytes color) := by
  simp only [sendColor, colorBytes, sendBytes_cons, sendBytes_nil]
  generalize sendByte s color.r = r1
  obtain ⟨b1, s1⟩ := r1
  cases b1
  · rfl
  · simp only [if_true]
    generalize sendByte s1 color.g = r2
    obtain ⟨b2, s2⟩ := r2
    cases b2
    · rfl
    · simp only [if_true]
      generalize sendByte s2 color.b = r3
      obtain ⟨b3, s3⟩ := r3
      cases b3 <;> rfl

theorem setLEDData_loop_eq (s : Sys) (colors : List Color) :
    setLEDData_loop s colors = sendBytes s (colors.flatMap colorBytes) := by
  induction colors generalizing s with
  | nil => rfl
  | cons c cs ih =>
    have step : setLEDData_loop s (c :: cs)
        = if !(sendColor s c).1 then (false, (sendColor s c).2)
          else setLEDData_loop (sendColor s c).2 cs := rfl
    rw [step, List.flatMap_cons, sendBytes_append, sendColor_eq, ih]
    generalize sendBytes s (colorBytes c) = r1
    obtain ⟨b1, s1⟩ := r1
    cases b1 <;> simp

/-! ## Writing a run of bytes -/

theorem sendBytes_accept (bytes : List Nat) (s : Sys) (p : Nat) (hp : s.port_ = some p)
    (hw : ∀ i, i < bytes.length → s.lib.writeRet (s.writeCalls + i) = 1) :
    sendBytes s bytes = (true, afterWrites s p bytes) := by
  induction bytes generalizing s with
  | nil => simp [sendBytes_nil, afterWrites, Sys.record]
  | cons b rest ih =>
    have h0 : s.lib.writeRet s.writeCalls = 1 := hw 0 (by simp)
    rw [sendBytes_cons, sendByte_afterWrites s p b hp]
    simp only [h0, decide_True, if_true]
    have hw1 : ∀ i, i < rest.length →
        (afterWrites s p [b]).lib.writeRet ((afterWrites s p [b]).writeCalls + i) = 1 := by
      intro i hi
      have e : (afterWrites s p [b]).writeCalls + i = s.writeCalls + (i + 1) := by
        show s.writeCalls + 1 + i = s.writeCalls + (i + 1)
        omega
      rw [e]
      exact hw (i + 1) (by simpa using hi)
    rw [ih (afterWrites s p [b]) hp hw1, afterWrites_afterWrites]
    rfl

theorem sendBytes_fail (bytes : List Nat) (s : Sys) (p : Nat) (hp : s.port_ = some p)
    (j : Nat) (hj : j < bytes.length)
    (hok : ∀ i, i < j → s.lib.writeRet (s.writeCalls + i) = 1)
    (hbad : s.lib.writeRet (s.writeCalls + j) ≠ 1) :
    sendBytes s bytes = (false, afterWrites s p (bytes.take (j + 1))) := by
  induction bytes generalizing s j with
  | nil => simp at hj
  | cons b rest ih =>
    rw [sendBytes_cons, sendByte_afterWrites s p b hp]
    cases j with
    | zero =>
      have hbad0 : ¬ s.lib.writeRet s.writeCalls = 1 := hbad
      simp [hbad0]
    | succ k =>
      have h0 : s.lib.writeRet s.writeCalls = 1 := hok 0 (by omega)
      simp only [h0, decide_True, if_true]
      have e : ∀ i, (afterWrites s p [b]).writeCalls + i = s.writeCalls + (i + 1) := by
        intro i
        show s.writeCalls + 1 + i = s.writeCalls + (i + 1)
        omega
      have hok1 : ∀ i, i < k →
          (afterWrites s p [b]).lib.writeRet ((afterWrites s p [b]).writeCalls + i) = 1 := by
        intro i hi
        rw [e]
        exact hok (i + 1) (by omega)
      have hbad1 :
          (afterWrites s p [b]).lib.writeRet ((afterWrites s p [b]).writeCalls + k) ≠ 1 := by
        rw [e]
        exact hbad
      rw [ih (afterWrites s p [b]) hp k (by simpa using hj) hok1 hbad1,
        afterWrites_afterWrites]
      rfl

/-! ## The write-then-acknowledge operations -/

theorem setStripLength_eq (s : Sys) (length : Nat) (hc : s.connected_ = true) :
    setStripLength s length = sendThenAck s (Op.wire (.setStripLength length)) := by
  have e : Op.wire (.setStripLength length)
      = [CMD_SET_LENGTH] ++ [highByte length, lowByte length] := rfl
  simp only [setStripLength, sendThenAck, hc, sendWord_eq, ← sendBytes_singleton, e,
    sendBytes_append]
  generalize sendBytes s [CMD_SET_LENGTH] = r1
  obtain ⟨b1, s1⟩ := r1
  cases b1
  · simp
  · simp only []
    generalize sendBytes s1 [highByte length, lowByte length] = r2
    obtain ⟨b2, s2⟩ := r2
    cases b2 <;> simp

theorem fillLEDs_eq (s : Sys) (first_led count : Nat) (color : Color)
    (hc : s.connected_ = true) :
    fillLEDs s first_led count color
      = sendThenAck s (Op.wire (.fillLEDs first_led count color)) := by
  have e : Op.wire (.fillLEDs first_led count color)
      = [CMD_FILL] ++ ([highByte first_led, lowByte first_led]
          ++ ([highByte count, lowByte count] ++ colorBytes color)) := rfl
  simp only [fillLEDs, sendThenAck, hc, sendWord_eq, sendColor_eq, ← sendBytes_singleton, e,
    sendBytes_append]
  generalize sendBytes s [CMD_FILL] = r1
  obtain ⟨b1, s1⟩ := r1
  cases b1
  · simp
  · simp only []
    generalize sendBytes s1 [highByte first_led, lowByte first_led] = r2
    obtain ⟨b2, s2⟩ := r2
    cases b2
    · simp
    · simp only []
      generalize sendBytes s2 [highByte count, lowByte count] = r3
      obtain ⟨b3, s3⟩ := r3
      cases b3
      · simp
      · simp only []
        generalize sendBytes s3 (colorBytes color) = r4
        obtain ⟨b4, s4⟩ := r4
        cases b4 <;> simp

theorem setLEDData_eq (s : Sys) (first_led : Nat) (colors : List Color)
    (hc : s.connected_ = true) (hne : colors ≠ []) :
    setLEDData s first_led colors
      = sendThenAck s (Op.wire (.setLEDData first_led colors)) := by
  have hemp : colors.isEmpty = false := by
    cases colors with
    | nil => exact absurd rfl hne
    | cons c cs => rfl
  have e : Op.wire (.setLEDData first_led colors)
      = [CMD_RECEIVE_DATA] ++ ([highByte first_led, lowByte first_led]
          ++ ([highByte (colors.length % 65536), lowByte (colors.length % 65536)]
            ++ colors.flatMap colorBytes)) := by
    simp [Op.wire, hemp]
  simp only [setLEDData, sendThenAck, hc, hemp, sendWord_eq, setLEDData_loop_eq,
    ← sendBytes_singleton, e, sendBytes_append]
  generalize sendBytes s [CMD_RECEIVE_DATA] = r1
  obtain ⟨b1, s1⟩ := r1
  cases b1
  · simp
  · simp only []
    generalize sendBytes s1 [highByte first_led, lowByte first_led] = r2
    obtain ⟨b2, s2⟩ := r2
    cases b2
    · simp
    · simp only []
      generalize sendBytes s2 [highByte (colors.length % 65536),
        lowByte (colors.length % 65536)] = r3
      obtain ⟨b3, s3⟩ := r3
      cases b3
      · simp
      · simp only []
        generalize sendBytes s3 (colors.flatMap colorBytes) = r4
        obtain ⟨b4, s4⟩ := r4
        cases b4 <;> simp

theorem outputData_eq (s : Sys) (hc : s.connected_ = true) :
    outputData s = sendThenAck s (Op.wire .outputData) := by
  have e : Op.wire .outputData = [CMD_OUTPUT] := rfl
  simp only [outputData, sendThenAck, hc, ← sendBytes_singleton, e]
  generalize sendBytes s [CMD_OUTPUT] = r1
  obtain ⟨b1, s1⟩ := r1
  cases b1 <;> simp

theorem clearAll_eq (s : Sys) (hc : s.connected_ = true) :
    clearAll s = sendThenAck s (Op.wire .clearAll) := by
  have e : Op.wire .clearAll = [CMD_CLEAR] := rfl
  simp only [clearAll, sendThenAck, hc, ← sendBytes_singleton, e]
  generalize sendBytes s [CMD_CLEAR] = r1
  obtain ⟨b1, s1⟩ := r1
  cases b1 <;> simp

/-! ## Byte arithmetic -/

theorem lowByte_eq_mod (word : Nat) : lowByte word = word % 256 := by
  unfold lowByte
  exact Nat.and_pow_two_sub_one_eq_mod word 8

theorem highByte_eq_div (word : Nat) : highByte word = word / 256 % 256 := by
  unfold highByte
  rw [Nat.shiftRight_eq_div_pow]
  exact Nat.and_pow_two_sub_one_eq_mod (word / 2 ^ 8) 8

theorem highByte_of_word (word : Nat) (h : word < 65536) : highByte word = word >>> 8 := by
  rw [highByte_eq_div, Nat.shiftRight_eq_div_pow]
  exact Nat.mod_eq_of_lt (by omega)

theorem shiftLeft_or_eq (high_byte low_byte : Nat) (hl : low_byte < 256) :
    (high_byte <<< 8) ||| low_byte = 256 * high_byte + low_byte := by
  rw [Nat.shiftLeft_eq, Nat.mul_comm]
  exact (Nat.mul_add_lt_is_or (by simpa using hl) high_byte).symm

theorem combineBytes_eq (high_byte low_byte : Nat) (hh : high_byte < 256)
    (hl : low_byte < 256) : combineBytes high_byte low_byte = 256 * high_byte + low_byte := by
  unfold combineBytes
  rw [shiftLeft_or_eq high_byte low_byte hl]
  omega

/-! ## Reading and the acknowledgement -/

theorem readByte_of_port (s : Sys) (p byte : Nat) (timeout_ms : Int) (hp : s.port_ = some p) :
    readByte s byte timeout_ms
      = (decide ((s.lib.readRet s.readCalls).1 = 1),
         (if (s.lib.readRet s.readCalls).1 = 1 then (s.lib.readRet s.readCalls).2 else byte),
         afterRead s p timeout_ms) := by
  simp [readByte, hp, afterRead]

theorem readByte_no_port (s : Sys) (byte : Nat) (timeout_ms : Int) (hp : s.port_ = none) :
    readByte s byte timeout_ms = (false, byte, s) := by
  simp [readByte, hp]

theorem waitForAck_of_port (s : Sys) (p : Nat) (timeout_ms : Int) (hp : s.port_ = some p) :
    waitForAck s timeout_ms =
      if (s.lib.readRet s.readCalls).1 = 1 then
        if (s.lib.readRet s.readCalls).2 = 0x41 then (true, afterRead s p timeout_ms)
        else if (s.lib.readRet s.readCalls).2 = 0x4E then
          (false, { afterRead s p timeout_ms with
                      cerr := s.cerr ++ ["Received NACK from device"] })
        else
          (false, { afterRead s p timeout_ms with
                      cerr := s.cerr ++ ["Unexpected response: "
                        ++ toString (s.lib.readRet s.readCalls).2] })
      else
        (false, { afterRead s p timeout_ms with
                    cerr := s.cerr ++ ["Timeout waiting for response"] }) := by
  unfold waitForAck
  rw [readByte_of_port s p 0 timeout_ms hp]
  by_cases h : (s.lib.readRet s.readCalls).1 = 1 <;> simp [h, afterRead, Sys.record]

theorem waitForAck_trace (s : Sys) (p : Nat) (timeout_ms : Int) (hp : s.port_ = some p) :
    (waitForAck s timeout_ms).2.trace = s.trace ++ [Event.blockingRead p timeout_ms] := by
  rw [waitForAck_of_port s p timeout_ms hp]
  split_ifs <;> exact afterRead_trace s p timeout_ms

theorem waitForAck_true_iff (s : Sys) (p : Nat) (timeout_ms : Int) (hp : s.port_ = some p) :
    (waitForAck s timeout_ms).1 = true
      ↔ ((s.lib.readRet s.readCalls).1 = 1 ∧ (s.lib.readRet s.readCalls).2 = 0x41) := by
  rw [waitForAck_of_port s p timeout_ms hp]
  split_ifs <;> simp_all

theorem sendThenAck_accept (s : Sys) (p : Nat) (bytes : List Nat) (hp : s.port_ = some p)
    (hw : ∀ i, i < bytes.length → s.lib.writeRet (s.writeCalls + i) = 1) :
    sendThenAck s bytes = waitForAck (afterWrites s p bytes) defaultTimeoutMs := by
  unfold sendThenAck
  rw [sendBytes_accept bytes s p hp hw]
  rfl

theorem sendThenAck_accept_trace (s : Sys) (p : Nat) (bytes : List Nat) (hp : s.port_ = some p)
    (hw : ∀ i, i < bytes.length → s.lib.writeRet (s.writeCalls + i) = 1) :
    (sendThenAck s bytes).2.trace = s.trace ++ bytes.map (wr p) ++ [rd p] := by
  rw [sendThenAck_accept s p bytes hp hw,
    waitForAck_trace (afterWrites s p bytes) p defaultTimeoutMs hp, afterWrites_trace]
  rfl

theorem sendThenAck_fail (s : Sys) (p : Nat) (bytes : List Nat) (hp : s.port_ = some p)
    (j : Nat) (hj : j < bytes.length)
    (hok : ∀ i, i < j → s.lib.writeRet (s.writeCalls + i) = 1)
    (hbad : s.lib.writeRet (s.writeCalls + j) ≠ 1) :
    sendThenAck s bytes = (false, afterWrites s p (bytes.take (j + 1))) := by
  unfold sendThenAck
  rw [sendBytes_fail bytes s p hp j hj hok hbad]
  rfl

/-! ## The connection is left alone -/

theorem SameConnection.refl (s : Sys) : SameConnection s s := ⟨rfl, rfl⟩

theorem SameConnection.trans {s t u : Sys} (h1 : SameConnection s t) (h2 : SameConnection t u) :
    SameConnection s u := ⟨h2.1.trans h1.1, h2.2.trans h1.2⟩

theorem sendByte_same (s : Sys) (byte : Nat) : SameConnection s (sendByte s byte).2 := by
  rcases h : s.port_ with _ | p
  · rw [sendByte_no_port s byte h]
    exact SameConnection.refl s
  · rw [sendByte_afterWrites s p byte h]
    exact ⟨rfl, rfl⟩

theorem sendBytes_same (bytes : List Nat) (s : Sys) : SameConnection s (sendBytes s bytes).2 := by
  induction bytes generalizing s with
  | nil => exact SameConnection.refl s
  | cons b rest ih =>
    rw [sendBytes_cons]
    split_ifs
    · exact (sendByte_same s b).trans (ih _)
    · exact sendByte_same s b

theorem readByte_same (s : Sys) (byte : Nat) (timeout_ms : Int) :
    SameConnection s (readByte s byte timeout_ms).2.2 := by
  rcases h : s.port_ with _ | p
  · rw [readByte_no_port s byte timeout_ms h]
    exact SameConnection.refl s
  · rw [readByte_of_port s p byte timeout_ms h]
    exact ⟨rfl, rfl⟩

theorem waitForAck_same (s : Sys) (timeout_ms : Int) :
    SameConnection s (waitForAck s timeout_ms).2 := by
  have h := readByte_same s 0 timeout_ms
  unfold waitForAck
  dsimp only
  split_ifs <;> exact h

theorem sendThenAck_same (s : Sys) (bytes : List Nat) :
    SameConnection s (sendThenAck s bytes).2 := by
  unfold sendThenAck
  split_ifs
  · exact (sendBytes_same bytes s).trans (waitForAck_same _ _)
  · exact sendBytes_same bytes s

theorem flatMap_colorBytes_length (colors : List Color) :
    (colors.flatMap colorBytes).length = 3 * colors.length := by
  induction colors with
  | nil => rfl
  | cons c cs ih =>
    rw [List.flatMap_cons, List.length_append, ih]
    simp only [colorBytes, List.length_cons, List.length_nil]
    omega

theorem setLEDData_trace (s : Sys) (p first_led : Nat) (colors : List Color)
    (hs : ConnectedOn s p) (hw : AcceptsWrites s) (hne : colors ≠ []) :
    (setLEDData s first_led colors).2.trace
      = s.trace ++ [wr p 0x52, wr p (highByte first_led), wr p (lowByte first_led),
          wr p (highByte (colors.length % 65536)), wr p (lowByte (colors.length % 65536))]
        ++ (colors.flatMap colorBytes).map (wr p) ++ [rd p] := by
  have hemp : colors.isEmpty = false := by
    cases colors with
    | nil => exact absurd rfl hne
    | cons c cs => rfl
  rw [setLEDData_eq s first_led colors hs.1 hne,
    sendThenAck_accept_trace s p _ hs.2 (fun i _ => hw _)]
  simp [Op.wire, hemp, CMD_RECEIVE_DATA]

theorem word_bytes_sum (word : Nat) (h : word < 65536) :
    word >>> 8 < 256 ∧ word &&& 0xFF < 256 ∧ 256 * (word >>> 8) + (word &&& 0xFF) = word := by
  have e1 : word &&& 0xFF = word % 256 := Nat.and_pow_two_sub_one_eq_mod word 8
  rw [Nat.shiftRight_eq_div_pow, e1]
  omega

/-! ## The two queries -/

theorem getVersion_of_port (s : Sys) (p major minor : Nat) (hs : ConnectedOn s p)
    (hw : s.lib.writeRet s.writeCalls = 1) :
    getVersion s major minor =
      if (s.lib.readRet s.readCalls).1 = 1 then
        if (s.lib.readRet (s.readCalls + 1)).1 = 1 then
          ((waitForAck (afterRead (afterRead (afterWrites s p [CMD_VERSION]) p 1000) p 1000)
              defaultTimeoutMs).1,
            (s.lib.readRet s.readCalls).2, (s.lib.readRet (s.readCalls + 1)).2,
            (waitForAck (afterRead (afterRead (afterWrites s p [CMD_VERSION]) p 1000) p 1000)
              defaultTimeoutMs).2)
        else
          (false, (s.lib.readRet s.readCalls).2, minor,
            afterRead (afterRead (afterWrites s p [CMD_VERSION]) p 1000) p 1000)
      else
        (false, major, minor, afterRead (afterWrites s p [CMD_VERSION]) p 1000) := by
  have e1 : sendByte s CMD_VERSION = (true, afterWrites s p [CMD_VERSION]) := by
    rw [sendByte_afterWrites s p _ hs.2]
    simp [hw]
  have e2 := readByte_of_port (afterWrites s p [CMD_VERSION]) p major 1000 hs.2
  have e3 := readByte_of_port (afterRead (afterWrites s p [CMD_VERSION]) p 1000) p minor 1000 hs.2
  have c2 : (afterWrites s p [CMD_VERSION]).readCalls = s.readCalls := rfl
  have c3 : (afterRead (afterWrites s p [CMD_VERSION]) p 1000).readCalls = s.readCalls + 1 := rfl
  have l2 : (afterWrites s p [CMD_VERSION]).lib = s.lib := rfl
  have l3 : (afterRead (afterWrites s p [CMD_VERSION]) p 1000).lib = s.lib := rfl
  rw [c2, l2] at e2
  rw [c3, l3] at e3
  unfold getVersion
  simp only [hs.1, e1, defaultTimeoutMs]
  by_cases h1 : (s.lib.readRet s.readCalls).1 = 1
  · by_cases h2 : (s.lib.readRet (s.readCalls + 1)).1 = 1
    · simp [e2, e3, h1, h2]
    · simp [e2, e3, h1, h2]
  · simp [e2, h1]

theorem getMaxLEDs_of_port (s : Sys) (p max_leds : Nat) (hs : ConnectedOn s p)
    (hw : s.lib.writeRet s.writeCalls = 1) :
    getMaxLEDs s max_leds =
      if (s.lib.readRet s.readCalls).1 = 1 then
        if (s.lib.readRet (s.readCalls + 1)).1 = 1 then
          ((waitForAck (afterRead (afterRead (afterWrites s p [CMD_MAX_LEDS]) p 1000) p 1000)
              defaultTimeoutMs).1,
            combineBytes (s.lib.readRet s.readCalls).2 (s.lib.readRet (s.readCalls + 1)).2,
            (waitForAck (afterRead (afterRead (afterWrites s p [CMD_MAX_LEDS]) p 1000) p 1000)
              defaultTimeoutMs).2)
        else
          (false, max_leds,
            afterRead (afterRead (afterWrites s p [CMD_MAX_LEDS]) p 1000) p 1000)
      else
        (false, max_leds, afterRead (afterWrites s p [CMD_MAX_LEDS]) p 1000) := by
  have e1 : sendByte s CMD_MAX_LEDS = (true, afterWrites s p [CMD_MAX_LEDS]) := by
    rw [sendByte_afterWrites s p _ hs.2]
    simp [hw]
  have e2 := readByte_of_port (afterWrites s p [CMD_MAX_LEDS]) p 0 1000 hs.2
  have e3 := readByte_of_port (afterRead (afterWrites s p [CMD_MAX_LEDS]) p 1000) p 0 1000 hs.2
  have c2 : (afterWrites s p [CMD_MAX_LEDS]).readCalls = s.readCalls := rfl
  have c3 : (afterRead (afterWrites s p [CMD_MAX_LEDS]) p 1000).readCalls = s.readCalls + 1 := rfl
  have l2 : (afterWrites s p [CMD_MAX_LEDS]).lib = s.lib := rfl
  have l3 : (afterRead (afterWrites s p [CMD_MAX_LEDS]) p 1000).lib = s.lib := rfl
  rw [c2, l2] at e2
  rw [c3, l3] at e3
  unfold getMaxLEDs
  simp only [hs.1, e1, defaultTimeoutMs]
  by_cases h1 : (s.lib.readRet s.readCalls).1 = 1
  · by_cases h2 : (s.lib.readRet (s.readCalls + 1)).1 = 1
    · simp [e2, e3, h1, h2]
    · simp [e2, e3, h1, h2]
  · simp [e2, h1]

theorem query_write_fail (s : Sys) (p : Nat) (hs : ConnectedOn s p)
    (hw : s.lib.writeRet s.writeCalls ≠ 1) (major minor max_leds : Nat) :
    getVersion s major minor = (false, major, minor, afterWrites s p [CMD_VERSION])
    ∧ getMaxLEDs s max_leds = (false, max_leds, afterWrites s p [CMD_MAX_LEDS]) := by
  have hw0 : ¬ s.lib.writeRet s.writeCalls = 1 := hw
  have e1 : sendByte s CMD_VERSION = (false, afterWrites s p [CMD_VERSION]) := by
    rw [sendByte_afterWrites s p _ hs.2]
    simp [hw0]
  have e2 : sendByte s CMD_MAX_LEDS = (false, afterWrites s p [CMD_MAX_LEDS]) := by
    rw [sendByte_afterWrites s p _ hs.2]
    simp [hw0]
  constructor
  · unfold getVersion
    simp [hs.1, e1]
  · unfold getMaxLEDs
    simp [hs.1, e2]

theorem getVersion_same (s : Sys) (major minor : Nat) :
    SameConnection s (getVersion s major minor).2.2.2 := by
  have a := sendByte_same s CMD_VERSION
  have b := readByte_same (sendByte s CMD_VERSION).2 major defaultTimeoutMs
  have c := readByte_same (readByte (sendByte s CMD_VERSION).2 major defaultTimeoutMs).2.2 minor
    defaultTimeoutMs
  have d := waitForAck_same (readByte (readByte (sendByte s CMD_VERSION).2 major
    defaultTimeoutMs).2.2 minor defaultTimeoutMs).2.2 defaultTimeoutMs
  unfold getVersion
  dsimp only
  split_ifs
  · exact SameConnection.refl s
  · exact a
  · exact a.trans b
  · exact (a.trans b).trans c
  · exact ((a.trans b).trans c).trans d

theorem getMaxLEDs_same (s : Sys) (max_leds : Nat) :
    SameConnection s (getMaxLEDs s max_leds).2.2 := by
  have a := sendByte_same s CMD_MAX_LEDS
  have b := readByte_same (sendByte s CMD_MAX_LEDS).2 0 defaultTimeoutMs
  have c := readByte_same (readByte (sendByte s CMD_MAX_LEDS).2 0 defaultTimeoutMs).2.2 0
    defaultTimeoutMs
  have d := waitForAck_same (readByte (readByte (sendByte s CMD_MAX_LEDS).2 0
    defaultTimeoutMs).2.2 0 defaultTimeoutMs).2.2 defaultTimeoutMs
  unfold getMaxLEDs
  dsimp only
  split_ifs
  · exact SameConnection.refl s
  · exact a
  · exact a.trans b
  · exact (a.trans b).trans c
  · exact ((a.trans b).trans c).trans d

theorem run_disconnected (op : Op) (s : Sys) (hd : s.connected_ = false) :
    op.run s = (false, s) := by
  cases op <;>
    simp [Op.run, setStripLength, fillLEDs, setLEDData, outputData, clearAll, getVersion,
      getMaxLEDs, hd]

theorem setLEDData_empty (s : Sys) (first_led : Nat) :
    setLEDData s first_led [] = (false, s) := by
  simp [setLEDData]

theorem run_same (op : Op) (s : Sys) : SameConnection s (op.run s).2 := by
  cases hc : s.connected_ with
  | false =>
    rw [run_disconnected op s hc]
    exact SameConnection.refl s
  | true =>
    cases op with
    | setStripLength length =>
      show SameConnection s (setStripLength s length).2
      rw [setStripLength_eq s length hc]
      exact sendThenAck_same s _
    | fillLEDs first_led count color =>
      show SameConnection s (fillLEDs s first_led count color).2
      rw [fillLEDs_eq s first_led count color hc]
      exact sendThenAck_same s _
    | setLEDData first_led colors =>
      show SameConnection s (setLEDData s first_led colors).2
      cases colors with
      | nil =>
        rw [setLEDData_empty]
        exact SameConnection.refl s
      | cons c cs =>
        rw [setLEDData_eq s first_led (c :: cs) hc (List.cons_ne_nil c cs)]
        exact sendThenAck_same s _
    | outputData =>
      show SameConnection s (outputData s).2
      rw [outputData_eq s hc]
      exact sendThenAck_same s _
    | clearAll =>
      show SameConnection s (clearAll s).2
      rw [clearAll_eq s hc]
      exact sendThenAck_same s _
    | getVersion major minor => exact getVersion_same s major minor
    | getMaxLEDs max_leds => exact getMaxLEDs_same s max_leds

/-! ## Where connected states come from -/

theorem connect_success (s : Sys) (port_name : String)
    (h : (connect s port_name).1 = true) :
    ∃ p, ConnectedOn (connect s port_name).2 p := by
  unfold connect at h ⊢
  dsimp only at h ⊢
  generalize (if s.connected_ = true then disconnect s else s) = s0 at h ⊢
  cases hl : s0.lib.lookupRet port_name with
  | none => simp [hl] at h
  | some p =>
    simp only [hl] at h ⊢
    by_cases ho : s0.lib.openRet p = 0
    · exact ⟨p, by simp [ho, Sys.record, ConnectedOn]⟩
    · simp [ho, Sys.record] at h

theorem ackSession_connected : ConnectedOn ackSession 3 ∧ AcceptsWrites ackSession :=
  ⟨⟨rfl, rfl⟩, fun _ => rfl⟩

/-! ## The claims -/

/-- C1: on a connected controller whose transport accepts every write,
`fillLEDs(first, count, colour)` with 16-bit `first` and `count` makes exactly
eight one-byte writes, `F`, `first>>8`, `first&0xFF`, `count>>8`, `count&0xFF`,
`r`, `g`, `b`, in this order, then exactly one one-byte read, and no other
transport call. -/
theorem fillLEDs_wire (s : Sys) (p first_led count : Nat) (color : Color)
    (hs : ConnectedOn s p) (hw : AcceptsWrites s)
    (hf : first_led < 65536) (hc : count < 65536) :
    (fillLEDs s first_led count color).2.trace
      = s.trace ++ [wr p 0x46, wr p (first_led >>> 8), wr p (first_led &&& 0xFF),
          wr p (count >>> 8), wr p (count &&& 0xFF),
          wr p color.r, wr p color.g, wr p color.b, rd p] := by
  rw [fillLEDs_eq s first_led count color hs.1,
    sendThenAck_accept_trace s p _ hs.2 (fun i _ => hw _)]
  simp [Op.wire, highByte_of_word, hf, hc, lowByte, CMD_FILL]

/-- Instance of C1 from the specification: after a successful `connect` to a
device that answers `A`, `fillLEDs(0, 10, Color(255,0,0))` puts
`F,0x00,0x00,0x00,0x0A,0xFF,0x00,0x00` on the wire and then reads the
acknowledgement. -/
theorem fillLEDs_wire_witness :
    (fillLEDs ackSession 0 10 (Color.mk 255 0 0)).2.trace
      = ackSession.trace ++ [wr 3 0x46, wr 3 0x00, wr 3 0x00, wr 3 0x00, wr 3 0x0A,
          wr 3 0xFF, wr 3 0x00, wr 3 0x00, rd 3] :=
  fillLEDs_wire ackSession 3 0 10 (Color.mk 255 0 0) ⟨rfl, rfl⟩ (fun _ => rfl)
    (by decide) (by decide)

/-- C2 (as amended): for every 16-bit `first` and every non-empty colour
sequence of at most 65535 colours, `setLEDData` on a connected controller whose
transport accepts every write sends `R`, `first` high byte then low byte, the
count high byte then low byte, then the `r`, `g`, `b` of each colour in
sequence order, and then makes exactly one acknowledgement read; the two count
bytes read big-endian equal the number of colours, and `3 * length` colour
bytes are sent. -/
theorem setLEDData_wire (s : Sys) (p first_led : Nat) (colors : List Color)
    (hs : ConnectedOn s p) (hw : AcceptsWrites s) (hf : first_led < 65536)
    (hne : colors ≠ []) (hlen : colors.length < 65536) :
    (setLEDData s first_led colors).2.trace
        = s.trace ++ [wr p 0x52, wr p (first_led >>> 8), wr p (first_led &&& 0xFF),
            wr p (colors.length >>> 8), wr p (colors.length &&& 0xFF)]
          ++ (colors.flatMap colorBytes).map (wr p) ++ [rd p]
      ∧ (colors.length >>> 8 < 256 ∧ colors.length &&& 0xFF < 256
          ∧ 256 * (colors.length >>> 8) + (colors.length &&& 0xFF) = colors.length)
      ∧ (colors.flatMap colorBytes).length = 3 * colors.length := by
  refine ⟨?_, word_bytes_sum colors.length hlen, flatMap_colorBytes_length colors⟩
  rw [setLEDData_trace s p first_led colors hs hw hne, Nat.mod_eq_of_lt hlen,
    highByte_of_word first_led hf, highByte_of_word colors.length hlen]
  rfl

/-- Instance of C2 (as amended): two colours written from LED 258 on the
acknowledging session; the count field is `0x00, 0x02`. -/
theorem setLEDData_wire_witness :
    (setLEDData ackSession 258 [Color.mk 1 2 3, Color.mk 4 5 6]).2.trace
        = ackSession.trace ++ [wr 3 0x52, wr 3 1, wr 3 2, wr 3 0, wr 3 2]
          ++ [wr 3 1, wr 3 2, wr 3 3, wr 3 4, wr 3 5, wr 3 6] ++ [rd 3]
      ∧ (0 < 256 ∧ 2 < 256 ∧ 256 * 0 + 2 = 2)
      ∧ ([Color.mk 1 2 3, Color.mk 4 5 6].flatMap colorBytes).length = 3 * 2 :=
  setLEDData_wire ackSession 3 258 [Color.mk 1 2 3, Color.mk 4 5 6] ⟨rfl, rfl⟩ (fun _ => rfl)
    (by decide) (by decide) (by decide)

/-- C2 as stated fails: with 65536 colours (all black) written from LED 0 on
the acknowledging session, no count field on the wire has the value 65536; the
code sends the count bytes `0x00, 0x00` and then all 196608 colour bytes. -/
theorem setLEDData_count_wraps :
    ¬ ∃ hi lo : Nat,
      (setLEDData ackSession 0 (List.replicate 65536 (Color.mk 0 0 0))).2.trace
          = ackSession.trace ++ [wr 3 0x52, wr 3 0, wr 3 0, wr 3 hi, wr 3 lo]
            ++ ((List.replicate 65536 (Color.mk 0 0 0)).flatMap colorBytes).map (wr 3)
            ++ [rd 3]
        ∧ 256 * hi + lo = (List.replicate 65536 (Color.mk 0 0 0)).length := by
  rintro ⟨hi, lo, h, hsum⟩
  have hlen : (List.replicate 65536 (Color.mk 0 0 0)).length = 65536 :=
    List.length_replicate 65536 (Color.mk 0 0 0)
  have hne : List.replicate 65536 (Color.mk 0 0 0) ≠ [] := by
    intro h0
    rw [h0] at hlen
    exact absurd hlen (by decide)
  rw [setLEDData_trace ackSession 3 0 _ ⟨rfl, rfl⟩ (fun _ => rfl) hne, hlen] at h
  rw [hlen] at hsum
  generalize ((List.replicate 65536 (Color.mk 0 0 0)).flatMap colorBytes).map (wr 3) = body at h
  have hbytes : highByte (65536 % 65536) = 0 ∧ lowByte (65536 % 65536) = 0 := by decide
  rw [hbytes.1, hbytes.2] at h
  have h2 := List.append_cancel_right (List.append_cancel_right h)
  have h3 := List.append_cancel_left h2
  simp only [List.cons.injEq, wr, Event.blockingWrite.injEq, and_true, true_and] at h3
  omega

/-- C3: with the handle held, `waitForAck` makes exactly one one-byte read;
byte `A` gives success, byte `N` failure on the NACK branch, any other byte
failure on the unexpected-response branch, no byte failure on the timeout
branch; so it succeeds exactly when a byte was read and it is `0x41`. -/
theorem waitForAck_outcomes (s : Sys) (p : Nat) (timeout_ms : Int) (hp : s.port_ = some p) :
    (waitForAck s timeout_ms).2.trace = s.trace ++ [Event.blockingRead p timeout_ms]
    ∧ ((s.lib.readRet s.readCalls).1 = 1 → (s.lib.readRet s.readCalls).2 = 0x41 →
        (waitForAck s timeout_ms).1 = true ∧ (waitForAck s timeout_ms).2.cerr = s.cerr)
    ∧ ((s.lib.readRet s.readCalls).1 = 1 → (s.lib.readRet s.readCalls).2 = 0x4E →
        (waitForAck s timeout_ms).1 = false
        ∧ (waitForAck s timeout_ms).2.cerr = s.cerr ++ ["Received NACK from device"])
    ∧ ((s.lib.readRet s.readCalls).1 = 1 → (s.lib.readRet s.readCalls).2 ≠ 0x41 →
        (s.lib.readRet s.readCalls).2 ≠ 0x4E →
        (waitForAck s timeout_ms).1 = false
        ∧ (waitForAck s timeout_ms).2.cerr
            = s.cerr ++ ["Unexpected response: " ++ toString (s.lib.readRet s.readCalls).2])
    ∧ ((s.lib.readRet s.readCalls).1 ≠ 1 →
        (waitForAck s timeout_ms).1 = false
        ∧ (waitForAck s timeout_ms).2.cerr = s.cerr ++ ["Timeout waiting for response"])
    ∧ ((waitForAck s timeout_ms).1 = true
        ↔ ((s.lib.readRet s.readCalls).1 = 1 ∧ (s.lib.readRet s.readCalls).2 = 0x41)) := by
  refine ⟨waitForAck_trace s p timeout_ms hp, ?_, ?_, ?_, ?_,
    waitForAck_true_iff s p timeout_ms hp⟩
  · intro h1 h2
    rw [waitForAck_of_port s p timeout_ms hp]
    simp [h1, h2, afterRead, Sys.record]
  · intro h1 h2
    rw [waitForAck_of_port s p timeout_ms hp]
    simp [h1, h2]
  · intro h1 h2 h3
    rw [waitForAck_of_port s p timeout_ms hp]
    simp [h1, h2, h3]
  · intro h1
    rw [waitForAck_of_port s p timeout_ms hp]
    simp [h1]

/-- Instance of C3: the device answers `X`; one read is made and the result is
failure on the unexpected-response branch. -/
theorem waitForAck_outcomes_witness :
    (waitForAck garbageSession 1000).2.trace
        = garbageSession.trace ++ [Event.blockingRead 3 1000]
      ∧ (waitForAck garbageSession 1000).1 = false
      ∧ (waitForAck garbageSession 1000).2.cerr
          = garbageSession.cerr ++ ["Unexpected response: " ++ toString 0x58] :=
  ⟨(waitForAck_outcomes garbageSession 3 1000 rfl).1,
   (waitForAck_outcomes garbageSession 3 1000 rfl).2.2.2.1 rfl (by decide) (by decide)⟩

/-- C4: on a connected controller whose opcode write is accepted and whose
first two reads deliver the bytes `high` and `low`, `getMaxLEDs` writes only
`M`, then makes exactly three one-byte reads (high, low, acknowledgement, the
acknowledgement last); it succeeds exactly when the third read delivers `A`,
and on success reports `(high<<8)|low = 256*high + low`. -/
theorem getMaxLEDs_exchange (s : Sys) (p max_leds high low : Nat) (hs : ConnectedOn s p)
    (hw : s.lib.writeRet s.writeCalls = 1)
    (h1 : s.lib.readRet s.readCalls = (1, high))
    (h2 : s.lib.readRet (s.readCalls + 1) = (1, low))
    (hh : high < 256) (hl : low < 256) :
    (getMaxLEDs s max_leds).2.2.trace = s.trace ++ [wr p 0x4D, rd p, rd p, rd p]
    ∧ ((getMaxLEDs s max_leds).1 = true
        ↔ ((s.lib.readRet (s.readCalls + 2)).1 = 1 ∧ (s.lib.readRet (s.readCalls + 2)).2 = 0x41))
    ∧ ((getMaxLEDs s max_leds).1 = true → (getMaxLEDs s max_leds).2.1 = (high <<< 8) ||| low)
    ∧ (high <<< 8) ||| low = 256 * high + low := by
  have hp3 : (afterRead (afterRead (afterWrites s p [CMD_MAX_LEDS]) p 1000) p 1000).port_
      = some p := hs.2
  have hform := getMaxLEDs_of_port s p max_leds hs hw
  simp only [h1, h2, if_true] at hform
  rw [hform]
  refine ⟨?_, ?_, ?_, shiftLeft_or_eq high low hl⟩
  · show (waitForAck _ defaultTimeoutMs).2.trace = _
    rw [waitForAck_trace _ p defaultTimeoutMs hp3, afterRead_trace, afterRead_trace,
      afterWrites_trace]
    simp [rd, defaultTimeoutMs, CMD_MAX_LEDS]
  · exact waitForAck_true_iff _ p defaultTimeoutMs hp3
  · intro _
    show combineBytes high low = _
    rw [combineBytes_eq high low hh hl, shiftLeft_or_eq high low hl]

/-- Instance of C4 from the specification: reply bytes `0x01`, `0x2C` and then
`A` give success and a maximum of 300. -/
theorem getMaxLEDs_exchange_witness :
    (getMaxLEDs maxLedsSession 0).2.2.trace
        = maxLedsSession.trace ++ [wr 3 0x4D, rd 3, rd 3, rd 3]
      ∧ (getMaxLEDs maxLedsSession 0).1 = true
      ∧ (getMaxLEDs maxLedsSession 0).2.1 = 300 :=
  have h := getMaxLEDs_exchange maxLedsSession 3 0 0x01 0x2C ⟨rfl, rfl⟩ rfl rfl rfl
    (by decide) (by decide)
  ⟨h.1, h.2.1.mpr ⟨rfl, rfl⟩, (h.2.2.1 (h.2.1.mpr ⟨rfl, rfl⟩)).trans h.2.2.2⟩

/-- C5: an operation whose entry guard fails does no transport I/O: each of the
seven strip operations, with any arguments, on a controller that is not
connected returns failure and leaves the whole state, the record of transport
calls included, as it was; so does `setLEDData` with no colours on any
controller, connected or not. -/
theorem guard_failure_no_transport (op : Op) (s t : Sys) (first_led : Nat)
    (hd : s.connected_ = false) :
    (op.run s = (false, s) ∧ (op.run s).2.trace = s.trace
        ∧ (op.run s).2.writeCalls = s.writeCalls ∧ (op.run s).2.readCalls = s.readCalls)
    ∧ (setLEDData t first_led [] = (false, t)
        ∧ (setLEDData t first_led []).2.trace = t.trace
        ∧ (setLEDData t first_led []).2.writeCalls = t.writeCalls
        ∧ (setLEDData t first_led []).2.readCalls = t.readCalls) := by
  rw [run_disconnected op s hd, setLEDData_empty t first_led]
  exact ⟨⟨rfl, rfl, rfl, rfl⟩, rfl, rfl, rfl, rfl⟩

/-- Instance of C5: `getMaxLEDs` on a controller that was never connected, and
`setLEDData` with no colours on a connected one. -/
theorem guard_failure_no_transport_witness :
    ((Op.getMaxLEDs 0).run idleController = (false, idleController)
        ∧ ((Op.getMaxLEDs 0).run idleController).2.trace = idleController.trace
        ∧ ((Op.getMaxLEDs 0).run idleController).2.writeCalls = idleController.writeCalls
        ∧ ((Op.getMaxLEDs 0).run idleController).2.readCalls = idleController.readCalls)
    ∧ (setLEDData ackSession 5 [] = (false, ackSession)
        ∧ (setLEDData ackSession 5 []).2.trace = ackSession.trace
        ∧ (setLEDData ackSession 5 []).2.writeCalls = ackSession.writeCalls
        ∧ (setLEDData ackSession 5 []).2.readCalls = ackSession.readCalls) :=
  guard_failure_no_transport (Op.getMaxLEDs 0) idleController ackSession 5 rfl

/-- C6: for every 16-bit `v`, `sendWord` transmits `(v>>8)&0xFF` first and
`v&0xFF` second, both bytes lie in 0..255, and combining them as `getMaxLEDs`
does, `(high<<8)|low` kept to 16 bits, gives `v` back. -/
theorem word_roundtrip (s : Sys) (p v : Nat) (hp : s.port_ = some p) (hw : AcceptsWrites s)
    (hv : v < 65536) :
    (sendWord s v).2.trace = s.trace ++ [wr p ((v >>> 8) &&& 0xFF), wr p (v &&& 0xFF)]
    ∧ combineBytes ((v >>> 8) &&& 0xFF) (v &&& 0xFF) = v
    ∧ (v >>> 8) &&& 0xFF < 256
    ∧ v &&& 0xFF < 256 := by
  have eh : (v >>> 8) &&& 0xFF = v / 256 % 256 := highByte_eq_div v
  have el : v &&& 0xFF = v % 256 := lowByte_eq_mod v
  have bh : (v >>> 8) &&& 0xFF < 256 := by rw [eh]; omega
  have bl : v &&& 0xFF < 256 := by rw [el]; omega
  refine ⟨?_, ?_, bh, bl⟩
  · rw [sendWord_eq, sendBytes_accept _ s p hp (fun i _ => hw _)]
    exact afterWrites_trace s p _
  · rw [combineBytes_eq _ _ bh bl, eh, el]
    omega

/-- Instance of C6: the word 300 goes out as `0x01, 0x2C` and comes back as 300. -/
theorem word_roundtrip_witness :
    (sendWord ackSession 300).2.trace = ackSession.trace ++ [wr 3 0x01, wr 3 0x2C]
    ∧ combineBytes 0x01 0x2C = 300
    ∧ 0x01 < 256
    ∧ 0x2C < 256 :=
  word_roundtrip ackSession 3 300 rfl (fun _ => rfl) (by decide)

/-- C7: no strip operation changes the connection state: whatever the
operation, its arguments and the answers of the transport, the handle held and
the connected flag after the call are those before it, so `isConnected()` is
unchanged. -/
theorem strip_ops_keep_connection (op : Op) (s : Sys) :
    (op.run s).2.port_ = s.port_
    ∧ (op.run s).2.connected_ = s.connected_
    ∧ isConnected (op.run s).2 = isConnected s :=
  ⟨(run_same op s).1, (run_same op s).2, (run_same op s).2⟩

/-- C8: `disconnect` is idempotent: from every state it leaves the flag cleared
and no handle held, it closes and frees the handle only if one was held, and a
second `disconnect` changes nothing, making no further transport call. -/
theorem disconnect_idempotent (s : Sys) :
    (disconnect s).connected_ = false
    ∧ (disconnect s).port_ = none
    ∧ (disconnect s).trace
        = s.trace ++ (match s.port_ with
                      | some p => [Event.close p, Event.freePort p]
                      | none => [])
    ∧ disconnect (disconnect s) = disconnect s
    ∧ (disconnect (disconnect s)).trace = (disconnect s).trace := by
  have hport : (disconnect s).port_ = none := by
    rcases h : s.port_ with _ | p <;> simp [disconnect, h]
  have hidem : disconnect (disconnect s) = disconnect s := by
    have step : ∀ u : Sys, u.port_ = none → u.connected_ = false → disconnect u = u := by
      intro u h1 h2
      unfold disconnect
      rw [h1]
      cases u
      simp_all
    exact step (disconnect s) hport rfl
  refine ⟨rfl, hport, ?_, hidem, by rw [hidem]⟩
  rcases h : s.port_ with _ | p <;> simp [disconnect, h, Sys.trace, Sys.record]

/-- C9: a write failure aborts the transaction at once: on a connected
controller, if the `k`-th write of an operation's wire sequence is the first
one not reported as one byte written, the operation returns failure after
exactly the first `k` writes of the sequence, each made once, and no read. -/
theorem write_failure_aborts (op : Op) (s : Sys) (p k : Nat) (hs : ConnectedOn s p)
    (hk1 : 1 ≤ k) (hk : k ≤ op.wire.length)
    (hok : ∀ i, i + 1 < k → s.lib.writeRet (s.writeCalls + i) = 1)
    (hbad : s.lib.writeRet (s.writeCalls + (k - 1)) ≠ 1) :
    (op.run s).1 = false
    ∧ (op.run s).2.trace = s.trace ++ (op.wire.take k).map (wr p)
    ∧ (op.run s).2.writeCalls = s.writeCalls + k
    ∧ (op.run s).2.readCalls = s.readCalls := by
  have hk2 : k - 1 + 1 = k := by omega
  have hlen : (op.wire.take k).length = k := by
    rw [List.length_take]
    omega
  have key : ∀ bytes : List Nat, bytes = op.wire → op.run s = sendThenAck s bytes →
      (op.run s).1 = false
      ∧ (op.run s).2.trace = s.trace ++ (op.wire.take k).map (wr p)
      ∧ (op.run s).2.writeCalls = s.writeCalls + k
      ∧ (op.run s).2.readCalls = s.readCalls := by
    intro bytes hb hrun
    rw [hrun, hb, sendThenAck_fail s p op.wire hs.2 (k - 1) (by omega)
      (fun i hi => hok i (by omega)) hbad, hk2]
    refine ⟨rfl, afterWrites_trace s p _, ?_, rfl⟩
    show s.writeCalls + (op.wire.take k).length = s.writeCalls + k
    rw [hlen]
  have hone : ∀ cmd : Nat, op.wire = [cmd] → k = 1 := by
    intro cmd hcmd
    rw [hcmd] at hk
    simp only [List.length_cons, List.length_nil] at hk
    omega
  cases op with
  | setStripLength length => exact key _ rfl (setStripLength_eq s length hs.1)
  | fillLEDs first_led count color =>
    exact key _ rfl (fillLEDs_eq s first_led count color hs.1)
  | setLEDData first_led colors =>
    cases colors with
    | nil => simp [Op.wire] at hk; omega
    | cons c cs =>
      exact key _ rfl (setLEDData_eq s first_led (c :: cs) hs.1 (List.cons_ne_nil c cs))
  | outputData => exact key _ rfl (outputData_eq s hs.1)
  | clearAll => exact key _ rfl (clearAll_eq s hs.1)
  | getVersion major minor =>
    have h1 := hone CMD_VERSION rfl
    subst h1
    have e := (query_write_fail s p hs hbad major minor 0).1
    show (getVersion s major minor).1 = false
      ∧ (getVersion s major minor).2.2.2.trace = _
      ∧ (getVersion s major minor).2.2.2.writeCalls = _
      ∧ (getVersion s major minor).2.2.2.readCalls = _
    rw [e]
    exact ⟨rfl, afterWrites_trace s p _, rfl, rfl⟩
  | getMaxLEDs max_leds =>
    have h1 := hone CMD_MAX_LEDS rfl
    subst h1
    have e := (query_write_fail s p hs hbad 0 0 max_leds).2
    show (getMaxLEDs s max_leds).1 = false
      ∧ (getMaxLEDs s max_leds).2.2.trace = _
      ∧ (getMaxLEDs s max_leds).2.2.writeCalls = _
      ∧ (getMaxLEDs s max_leds).2.2.readCalls = _
    rw [e]
    exact ⟨rfl, afterWrites_trace s p _, rfl, rfl⟩

/-- Instance of C9: `setStripLength(300)` on a link that refuses the second
byte: `L` and `0x01` are written, then the operation fails without a read. -/
theorem write_failure_aborts_witness :
    ((Op.setStripLength 300).run stallingSession).1 = false
    ∧ ((Op.setStripLength 300).run stallingSession).2.trace
        = stallingSession.trace ++ [wr 3 0x4C, wr 3 0x01]
    ∧ ((Op.setStripLength 300).run stallingSession).2.writeCalls
        = stallingSession.writeCalls + 2
    ∧ ((Op.setStripLength 300).run stallingSession).2.readCalls
        = stallingSession.readCalls :=
  write_failure_aborts (Op.setStripLength 300) stallingSession 3 2 ⟨rfl, rfl⟩
    (by decide) (by decide)
    (fun i hi => by
      have h0 : i = 0 := by omega
      subst h0
      rfl)
    (by decide)

/-- C10: `getVersion` writes its outputs independently of its result.  On a
connected controller whose opcode write is accepted, after the call `major` is
the first reply byte if the first read succeeded and its old value otherwise,
and `minor` is the second reply byte if both payload reads succeeded and its
old value otherwise; the call fails when the second read fails (with `major`
already overwritten) and when the acknowledgement is not `A` (with both
overwritten). -/
theorem getVersion_outputs (s : Sys) (p major minor : Nat) (hs : ConnectedOn s p)
    (hw : s.lib.writeRet s.writeCalls = 1) :
    (getVersion s major minor).2.1
        = (if (s.lib.readRet s.readCalls).1 = 1 then (s.lib.readRet s.readCalls).2 else major)
    ∧ (getVersion s major minor).2.2.1
        = (if (s.lib.readRet s.readCalls).1 = 1 ∧ (s.lib.readRet (s.readCalls + 1)).1 = 1
            then (s.lib.readRet (s.readCalls + 1)).2 else minor)
    ∧ ((s.lib.readRet s.readCalls).1 = 1 → (s.lib.readRet (s.readCalls + 1)).1 ≠ 1 →
        (getVersion s major minor).1 = false
        ∧ (getVersion s major minor).2.1 = (s.lib.readRet s.readCalls).2
        ∧ (getVersion s major minor).2.2.1 = minor)
    ∧ ((s.lib.readRet s.readCalls).1 = 1 → (s.lib.readRet (s.readCalls + 1)).1 = 1 →
        ¬ ((s.lib.readRet (s.readCalls + 2)).1 = 1
            ∧ (s.lib.readRet (s.readCalls + 2)).2 = 0x41) →
        (getVersion s major minor).1 = false
        ∧ (getVersion s major minor).2.1 = (s.lib.readRet s.readCalls).2
        ∧ (getVersion s major minor).2.2.1 = (s.lib.readRet (s.readCalls + 1)).2) := by
  have hp3 : (afterRead (afterRead (afterWrites s p [CMD_VERSION]) p 1000) p 1000).port_
      = some p := hs.2
  have hack := waitForAck_true_iff _ p defaultTimeoutMs hp3
  rw [getVersion_of_port s p major minor hs hw]
  refine ⟨?_, ?_, ?_, ?_⟩
  · split_ifs <;> rfl
  · split_ifs <;> simp_all
  · intro h1 h2
    simp [h1, h2]
  · intro h1 h2 h3
    rw [if_pos h1, if_pos h2]
    refine ⟨?_, rfl, rfl⟩
    cases hres : (waitForAck (afterRead (afterRead (afterWrites s p [CMD_VERSION]) p 1000)
        p 1000) defaultTimeoutMs).1 with
    | false => rfl
    | true => exact absurd (hack.mp hres) h3

/-- Instance of C10: the device sends the major byte `0x02` and then falls
silent; `getVersion` fails, `major` has become 2 and `minor` keeps its old
value 8. -/
theorem getVersion_outputs_witness :
    (getVersion silentSession 7 8).1 = false
    ∧ (getVersion silentSession 7 8).2.1 = 2
    ∧ (getVersion silentSession 7 8).2.2.1 = 8 :=
  (getVersion_outputs silentSession 3 7 8 ⟨rfl, rfl⟩ rfl).2.2.1 rfl (by decide)

end TeensyStrip
